import Mathlib

/-!
Shallow embedding of `issabel_client/client.py` (IssabelClient): a Python
HTTP client for the Issabel PBX REST API.  HTTP transport is modelled by a
script of responses consumed in order; every request actually issued is
recorded in a log.  Python dictionaries are modelled as association lists
with insert-or-replace assignment, Python `Optional` as `Option`, raised
exceptions as an error result type, and Python truthiness explicitly.
-/

namespace Issabel

/-- A Python `dict` with string keys and string values, as used for JSON
bodies, headers and query parameters in the client. -/
abbrev Dict := List (String × String)

/-- Python `d[k] = v`: replace the value of an existing key in place,
otherwise append the new binding at the end (Python dicts keep insertion
order). -/
def dictSet (d : Dict) (k v : String) : Dict :=
  match d with
  | [] => [(k, v)]
  | (k', v') :: rest => if k' = k then (k, v) :: rest else (k', v') :: dictSet rest k v

/-- Python `d.get(k)`: the value at `k`, or `None` when absent. -/
def dictLookup (d : Dict) (k : String) : Option String :=
  match d with
  | [] => none
  | (k', v) :: rest => if k' = k then some v else dictLookup rest k

/-- Python `k in d`. -/
def dictHasKey (d : Dict) (k : String) : Bool :=
  (dictLookup d k).isSome

/-- Python truthiness of an `Optional[str]`: `None` and `""` are falsy. -/
def optStrTruthy (o : Option String) : Bool :=
  match o with
  | none => false
  | some s => s ≠ ""

/-- Python `str(x)` on an `Optional[str]` as produced by an f-string:
`None` prints as `"None"`. -/
def pyStr (o : Option String) : String :=
  match o with
  | none => "None"
  | some s => s

/-- Python `result or \x7b\x7d` on an `Optional[Dict]`: a missing or empty
mapping collapses to the empty mapping. -/
def pyOr (o : Option Dict) : Dict :=
  match o with
  | some d => if d = [] then [] else d
  | none => []

/-- Python `s.take`-style slice `s[:n]`, by characters. -/
def strTake (s : String) (n : Nat) : String :=
  ⟨s.data.take n⟩

/-- Python `s[n:]`, by characters. -/
def strDrop (s : String) (n : Nat) : String :=
  ⟨s.data.drop n⟩

/-- Whether the first character list is a prefix of the second. -/
def listIsPrefix : List Char → List Char → Bool
  | [], _ => true
  | a :: as, l =>
    match l with
    | [] => false
    | b :: bs => (a == b) && listIsPrefix as bs

/-- Python `s.startswith(p)`. -/
def strStartsWith (s p : String) : Bool :=
  listIsPrefix p.data s.data

/-- Python `s.rstrip(\x27/\x27)`: remove trailing slash characters. -/
def rstripSlash (s : String) : String :=
  ⟨(s.data.reverse.dropWhile (fun c => c = '/')).reverse⟩

/-- `urllib.parse.urljoin` for the calls made by this client: the base URL
always ends in `/pbxapi/` and every joined path is relative, so the join is
concatenation. -/
def urljoin (base path : String) : String :=
  base ++ path

/-- An HTTP response as seen by the client: status code, raw body text
(`response.content` / `response.text`), whether `response.json()` succeeds,
and the parsed JSON object when it does. -/
structure Response where
  status_code : Nat
  content : String
  json_ok : Bool
  json_val : Dict
deriving DecidableEq

/-- An outgoing HTTP request as actually issued by `requests`:
`headers` is the effective header set (session headers merged with the
per-request headers). -/
structure Request where
  method : String
  url : String
  jsonBody : Option Dict
  formBody : Option Dict
  params : Option Dict
  headers : Dict
  verify : Bool
deriving DecidableEq

/-- The mutable state of an `IssabelClient` instance: base URL, TLS
verification flag, the two tokens, and the underlying `requests.Session`
header mapping (the keys this client manipulates). -/
structure Session where
  base_url : String
  verify_ssl : Bool
  access_token : Option String
  refresh_token : Option String
  headers : Dict
deriving DecidableEq

/-- `IssabelClient.__init__`. -/
def mkSession (base_url : String) (use_ssl : Bool) (verify_ssl : Bool) : Session :=
  { base_url := (if use_ssl then "https" else "http") ++ "://" ++ rstripSlash base_url ++ "/pbxapi/"
    verify_ssl := verify_ssl
    access_token := none
    refresh_token := none
    headers := [] }

/-- The world a client call runs in: the session state, the script of
responses the transport will deliver (consumed in order), and the log of
requests issued so far. -/
structure World where
  sess : Session
  script : List Response
  log : List Request
deriving DecidableEq

/-- A raised Python exception. -/
inductive Err where
  /-- `raise ValueError(msg)` -/
  | valueError (msg : String)
  /-- `d[k]` with `k` absent -/
  | keyError (k : String)
  /-- `raise AttributeError(msg)` -/
  | attributeError (msg : String)
  /-- propagated `requests.exceptions.HTTPError` -/
  | httpError (code : Nat) (url : String)
  /-- transport-level failure (no response delivered) -/
  | connectionError
deriving DecidableEq

/-- Result of a Python call: a normal return or a raised exception. -/
inductive PyResult (α : Type) where
  | ok (v : α)
  | exn (e : Err)
deriving DecidableEq

/-- Model of `str(e)` for a `requests.HTTPError` (status code and URL;
the reason phrase is not modelled). -/
def httpErrorStr (code : Nat) (url : String) : String :=
  toString code ++ " Error for url: " ++ url

/-- `response.raise_for_status()` raises exactly for 4xx/5xx codes. -/
def isHttpErrCode (code : Nat) : Prop :=
  400 ≤ code ∧ code < 600

instance (code : Nat) : Decidable (isHttpErrCode code) := by
  unfold isHttpErrCode; infer_instance

/-- Merge per-request headers over session headers, per-request winning
(the merge `requests` performs when sending). -/
def mergeHeaders (sess per : Dict) : Dict :=
  per.foldl (fun acc kv => dictSet acc kv.1 kv.2) sess

/-- Issue one request: consume the next scripted response and log the
request with its effective headers; `none` models a transport failure
(`requests.exceptions.ConnectionError`). -/
def sendReq (w : World) (method url : String) (jsonBody : Option Dict)
    (formBody : Option Dict) (params : Option Dict) (perHeaders : Dict) :
    Option (Response × World) :=
  match w.script with
  | [] => none
  | r :: rest =>
    some (r, { w with
      script := rest
      log := w.log ++ [{ method := method, url := url, jsonBody := jsonBody,
                         formBody := formBody, params := params,
                         headers := mergeHeaders w.sess.headers perHeaders,
                         verify := w.sess.verify_ssl }] })

/-- Python `result and "error" in result` on an `Optional[Dict]`. -/
def truthyWithError (o : Option Dict) : Bool :=
  match o with
  | some d => !d.isEmpty && dictHasKey d "error"
  | none => false

/-- Python `result and result.get("status") == v` on an `Optional[Dict]`. -/
def truthyWithStatus (o : Option Dict) (v : String) : Bool :=
  match o with
  | some d => !d.isEmpty && (dictLookup d "status" == some v)
  | none => false

/-- `IssabelClient._safe_json_parse`. -/
def safe_json_parse (r : Response) : Option Dict :=
  if r.content = "" then none
  else if r.json_ok then some r.json_val
  else some [("error", "Invalid JSON response"), ("content", r.content)]

/-- `IssabelClient.authenticate`. -/
def authenticate (w : World) (username password : String) : PyResult Dict × World :=
  let url := urljoin w.sess.base_url "authenticate"
  let data : Dict := [("user", username), ("password", password)]
  match sendReq w "POST" url none (some data) none [] with
  | none => (.exn .connectionError, w)
  | some (response, w1) =>
    if isHttpErrCode response.status_code then
      (.exn (.httpError response.status_code url), w1)
    else
      let result := safe_json_parse response
      if truthyWithError result then
        match result with
        | some d =>
          (match dictLookup d "content" with
           | some c =>
             (.exn (.valueError ("Authentication failed: Server returned non-JSON response. Content: "
               ++ strTake c 200)), w1)
           | none => (.exn (.keyError "content"), w1))
        | none => (.exn (.keyError "content"), w1)
      else
        let access : Option String :=
          match result with
          | some d => if d ≠ [] then dictLookup d "access_token" else none
          | none => none
        let refresh : Option String :=
          match result with
          | some d => if d ≠ [] then dictLookup d "refresh_token" else none
          | none => none
        let sess1 := { w1.sess with access_token := access, refresh_token := refresh }
        let sess2 :=
          if optStrTruthy access then
            { sess1 with headers := dictSet sess1.headers "Authorization" ("Bearer " ++ pyStr access) }
          else sess1
        (.ok (pyOr result), { w1 with sess := sess2 })

/-- The URL `renew_token` requests, built from the session's tokens. -/
def renewUrl (s : Session) : String :=
  urljoin s.base_url
    ("authenticate/renewtoken?refresh_token=" ++ pyStr s.refresh_token
      ++ "&access_token=" ++ pyStr s.access_token)

/-- `IssabelClient.renew_token`. -/
def renew_token (w : World) : PyResult Dict × World :=
  if ¬ optStrTruthy w.sess.refresh_token ∨ ¬ optStrTruthy w.sess.access_token then
    (.exn (.valueError "No refresh token or access token available. Authenticate first."), w)
  else
    let url := renewUrl w.sess
    match sendReq w "GET" url none none none [] with
    | none => (.exn .connectionError, w)
    | some (response, w1) =>
      if isHttpErrCode response.status_code then
        (.exn (.httpError response.status_code url), w1)
      else
        let result := safe_json_parse response
        if truthyWithStatus result "authorized" then
          let d := result.getD []
          let access := dictLookup d "access_token"
          let refresh := dictLookup d "refresh_token"
          let sess' := { w1.sess with
            access_token := access
            refresh_token := refresh
            headers := dictSet w1.sess.headers "Authorization" ("Bearer " ++ pyStr access) }
          (.ok (pyOr result), { w1 with sess := sess' })
        else
          (.ok (pyOr result), w1)

/-- A `path_id` argument: Python `Union[str, int]`. -/
inductive PathId where
  | s (v : String)
  | n (v : Int)
deriving DecidableEq

/-- Python truthiness of a `path_id`: `""` and `0` are falsy. -/
def PathId.truthy : PathId → Bool
  | .s v => v ≠ ""
  | .n v => v ≠ 0

/-- Python `str(path_id)`. -/
def PathId.toStr : PathId → String
  | .s v => v
  | .n v => toString v

/-- `_request` lines 122-124: the URL path is `resource/path_id` when
`path_id` is truthy, else the bare `resource`. -/
def requestPath (resource : String) (path_id : Option PathId) : String :=
  match path_id with
  | some pid => if pid.truthy then resource ++ "/" ++ pid.toStr else resource
  | none => resource

/-- `_request` lines 129-133: for POST/PUT, a missing body becomes a fresh
empty dict, and when `reload` is set the field `reload: "true"` is assigned
into the body object.  The result is the JSON body actually sent. -/
def requestBody (method : String) (data0 : Option Dict) (rld : Bool) : Option Dict :=
  if method = "POST" ∨ method = "PUT" then
    some (if rld then dictSet (data0.getD []) "reload" "true" else data0.getD [])
  else data0

/-- The contents of the caller-supplied `data` object after `_request`
returns: the `reload` assignment in lines 129-133 mutates the caller's
dict in place (the fresh dict created when `data is None` is never visible
to the caller). -/
def callerAfter (method : String) (data0 : Option Dict) (rld : Bool) : Option Dict :=
  data0.map (fun d =>
    if (method = "POST" ∨ method = "PUT") ∧ rld then dictSet d "reload" "true" else d)

/-- The per-request headers `_request` passes to `session.request`. -/
def dispatchHeaders : Dict := [("Content-Type", "application/json")]

/-- Outcome of a `_request` call: the returned value (or raised
exception), the world afterwards, and the final contents of the
caller-supplied `data` object (`none` when the caller passed no body). -/
structure DispatchOut where
  result : PyResult Dict
  world : World
  callerData : Option Dict
deriving DecidableEq

/-- Tail of `_request` (lines 173-177): `response.raise_for_status()`,
whose `HTTPError` is caught and turned into the structured error dict,
else the parsed body (empty dict when empty). -/
def dispatchFinish (w : World) (r : Response) (url : String)
    (callerData : Option Dict) : DispatchOut :=
  if isHttpErrCode r.status_code then
    ⟨.ok [("error", httpErrorStr r.status_code url), ("response", r.content)], w, callerData⟩
  else
    ⟨.ok (pyOr (safe_json_parse r)), w, callerData⟩

/-- The legacy expired-token check of `_request` (lines 160-171): on a 200
response whose body's `status` is `"expired"`, renew once and resend once.
An `HTTPError` raised by the renewal is caught by `_request`'s handler
(with the current response's text); other exceptions propagate. -/
def dispatchExpired (w : World) (r : Response) (method url : String)
    (sent : Option Dict) (params : Option Dict) (callerData : Option Dict) : DispatchOut :=
  if r.status_code = 200 ∧ truthyWithStatus (safe_json_parse r) "expired" then
    match renew_token w with
    | (.exn (.httpError code u), w2) =>
      ⟨.ok [("error", httpErrorStr code u), ("response", r.content)], w2, callerData⟩
    | (.exn e, w2) => ⟨.exn e, w2, callerData⟩
    | (.ok _, w2) =>
      match sendReq w2 method url sent none params dispatchHeaders with
      | none => ⟨.exn .connectionError, w2, callerData⟩
      | some (r2, w3) => dispatchFinish w3 r2 url callerData
  else
    dispatchFinish w r url callerData

/-- The 401 check of `_request` (lines 148-157): on an unauthorized
response, renew once and resend once, then fall through to the expired
check on whatever response is now current. -/
def dispatch401 (w : World) (r : Response) (method url : String)
    (sent : Option Dict) (params : Option Dict) (callerData : Option Dict) : DispatchOut :=
  if r.status_code = 401 then
    match renew_token w with
    | (.exn (.httpError code u), w2) =>
      ⟨.ok [("error", httpErrorStr code u), ("response", r.content)], w2, callerData⟩
    | (.exn e, w2) => ⟨.exn e, w2, callerData⟩
    | (.ok _, w2) =>
      match sendReq w2 method url sent none params dispatchHeaders with
      | none => ⟨.exn .connectionError, w2, callerData⟩
      | some (r2, w3) => dispatchExpired w3 r2 method url sent params callerData
  else
    dispatchExpired w r method url sent params callerData

/-- The send/recover/parse core of `_request`, after the URL path and the
body have been resolved. -/
def dispatchCore (w : World) (method url : String) (sent : Option Dict)
    (params : Option Dict) (callerData : Option Dict) : DispatchOut :=
  match sendReq w method url sent none params dispatchHeaders with
  | none => ⟨.exn .connectionError, w, callerData⟩
  | some (r1, w1) => dispatch401 w1 r1 method url sent params callerData

/-- `IssabelClient._request`. -/
def dispatch (w : World) (method resource : String) (path_id : Option PathId)
    (data0 : Option Dict) (params : Option Dict) (rld : Bool) : DispatchOut :=
  dispatchCore w method (urljoin w.sess.base_url (requestPath resource path_id))
    (requestBody method data0 rld) params (callerAfter method data0 rld)

/-- A `fields` argument: Python `Union[str, List[str]]`. -/
inductive Fields where
  | s (v : String)
  | l (vs : List String)
deriving DecidableEq

/-- Python truthiness of an optional `fields` argument. -/
def fieldsTruthy (o : Option Fields) : Bool :=
  match o with
  | none => false
  | some (.s v) => v ≠ ""
  | some (.l vs) => vs ≠ []

/-- `fields if isinstance(fields, str) else ",".join(fields)`. -/
def fieldsJoin : Fields → String
  | .s v => v
  | .l vs => String.intercalate "," vs

/-- The query-parameter dict built by `search` and `get_resource`. -/
def fieldsParams (fields : Option Fields) : Dict :=
  match fields with
  | some f => if fieldsTruthy (some f) then [("fields", fieldsJoin f)] else []
  | none => []

/-- `IssabelClient.search`. -/
def search (w : World) (resource term : String) (fields : Option Fields) : DispatchOut :=
  dispatch w "GET" (resource ++ "/search/" ++ term) none none (some (fieldsParams fields)) true

/-- `IssabelClient.get_resource`. -/
def get_resource (w : World) (resource : String) (resource_id : Option PathId)
    (fields : Option Fields) : DispatchOut :=
  dispatch w "GET" resource resource_id none (some (fieldsParams fields)) true

/-- `IssabelClient.create_resource`. -/
def create_resource (w : World) (resource : String) (data : Dict) (rld : Bool) : DispatchOut :=
  dispatch w "POST" resource none (some data) none rld

/-- `IssabelClient.update_resource`. -/
def update_resource (w : World) (resource : String) (resource_id : PathId)
    (data : Dict) (rld : Bool) : DispatchOut :=
  dispatch w "PUT" resource (some resource_id) (some data) none rld

/-- A `delete_resource` identifier: Python `Union[str, int, List[Union[str, int]]]`. -/
inductive DelId where
  | s (v : String)
  | n (v : Int)
  | l (ids : List PathId)
deriving DecidableEq

/-- `delete_resource` lines 224-225: a list collapses to the comma-join of
the string forms of its elements. -/
def DelId.resolve : DelId → PathId
  | .s v => .s v
  | .n v => .n v
  | .l ids => .s (String.intercalate "," (ids.map PathId.toStr))

/-- `IssabelClient.delete_resource`. -/
def delete_resource (w : World) (resource : String) (resource_id : DelId)
    (rld : Bool) : DispatchOut :=
  dispatch w "DELETE" resource (some resource_id.resolve) none none rld

/-- A bound method synthesized by `__getattr__`. -/
inductive DynMethod where
  | getM (resource : String)
  | createM (resource : String)
  | updateM (resource : String)
  | deleteM (resource : String)
deriving DecidableEq

/-- `IssabelClient.__getattr__`: dynamic fallback for attribute names not
defined on the class. -/
def getattrFallback (name : String) : PyResult DynMethod :=
  if strStartsWith name "get_" then .ok (.getM (strDrop name 4))
  else if strStartsWith name "create_" then .ok (.createM (strDrop name 7))
  else if strStartsWith name "update_" then .ok (.updateM (strDrop name 7))
  else if strStartsWith name "delete_" then .ok (.deleteM (strDrop name 7))
  else .exn (.attributeError ("\x27IssabelClient\x27 object has no attribute \x27" ++ name ++ "\x27"))

/-- An argument tuple for a synthesized method. -/
inductive DynArgs where
  | getA (resource_id : Option PathId) (fields : Option Fields)
  | createA (data : Dict) (rld : Bool)
  | updateA (resource_id : PathId) (data : Dict) (rld : Bool)
  | deleteA (resource_id : DelId) (rld : Bool)

/-- Calling a synthesized method: each lambda built by `__getattr__`
forwards to the generic CRUD operation with `resource` bound to the name's
suffix; `none` models a Python `TypeError` from a wrong-arity call. -/
def callDyn (w : World) (m : DynMethod) (a : DynArgs) : Option DispatchOut :=
  match m, a with
  | .getM r, .getA rid f => some (get_resource w r rid f)
  | .createM r, .createA d rl => some (create_resource w r d rl)
  | .updateM r, .updateA rid d rl => some (update_resource w r rid d rl)
  | .deleteM r, .deleteA rid rl => some (delete_resource w r rid rl)
  | _, _ => none

/-- Number of requests in a log that target the token-renewal endpoint of
the given base URL. -/
def countRenews (log : List Request) (base : String) : Nat :=
  (log.filter (fun q => strStartsWith q.url (base ++ "authenticate/renewtoken?"))).length

/-- Number of requests in a log whose URL is exactly `u`. -/
def countUrl (log : List Request) (u : String) : Nat :=
  (log.filter (fun q => q.url = u)).length

/-- A session that already holds tokens `A1`/`R1` with the matching
bearer header, as left by a successful authentication. -/
def sessTok : Session :=
  ⟨"http://h/pbxapi/", false, some "A1", some "R1", [("Authorization", "Bearer A1")]⟩

/-- World for the C3 witness: the renewal endpoint answers with a
non-authorized status. -/
def wDenied : World :=
  ⟨sessTok, [⟨200, "j", true, [("status", "denied")]⟩], []⟩

/-- World for the C6 witness: a fresh session whose authentication
endpoint answers 200 with a non-JSON body. -/
def wGarbage : World :=
  ⟨mkSession "h" true false, [⟨200, "garbage body", false, []⟩], []⟩

/-- World for the C10 counterexample: valid JSON with an `"error"` key but
no `"content"` key. -/
def wErrJson : World :=
  ⟨mkSession "h" true false, [⟨200, "ej", true, [("error", "invalid credentials")]⟩], []⟩

/-- World for the C10 witness: valid JSON with both `"error"` and
`"content"` keys. -/
def wErrJsonC : World :=
  ⟨mkSession "h" true false, [⟨200, "ej", true, [("error", "x"), ("content", "server snippet")]⟩], []⟩

/-- A 401 response with a non-JSON body. -/
def resp401 : Response := ⟨401, "unauth", false, []⟩

/-- A successful renewal response carrying tokens `A2`/`R2`. -/
def respAuthA2 : Response :=
  ⟨200, "j", true, [("status", "authorized"), ("access_token", "A2"), ("refresh_token", "R2")]⟩

/-- A successful renewal response carrying tokens `A3`/`R3`. -/
def respAuthA3 : Response :=
  ⟨200, "j", true, [("status", "authorized"), ("access_token", "A3"), ("refresh_token", "R3")]⟩

/-- A 200 response whose body signals an expired token. -/
def respExpired : Response := ⟨200, "j", true, [("status", "expired")]⟩

/-- An ordinary successful 200 response. -/
def respOK : Response := ⟨200, "j", true, [("status", "success")]⟩

/-- World for the C1 counterexample: a 401, then an authorized renewal,
then a 200-"expired" resend, then a second authorized renewal, then a
success. -/
def wTwice : World :=
  ⟨sessTok, [resp401, respAuthA2, respExpired, respAuthA3, respOK], []⟩

/-- World for the C1 witness: a 401 followed by a successful renewal and a
successful, non-expired resend. -/
def wRecover : World :=
  ⟨sessTok, [resp401, respAuthA2, respOK], []⟩

/-- World with one pending successful response, starting from a session
holding tokens. -/
def wOne : World := ⟨sessTok, [respOK], []⟩

/-- How one client operation may change the session's header dict: either
untouched, or with the `Authorization` entry upserted to a new bearer
value — never removed. -/
def HeadersEvolve (h1 h2 : Dict) : Prop :=
  h2 = h1 ∨ ∃ v, h2 = dictSet h1 "Authorization" v

/-- One public operation of the client, as invoked by a caller. -/
inductive Op where
  | authOp (u p : String)
  | renewOp
  | dispatchOp (method resource : String) (pid : Option PathId) (d0 : Option Dict)
      (ps : Option Dict) (rld : Bool)
  | searchOp (resource term : String) (fields : Option Fields)
  | getOp (resource : String) (rid : Option PathId) (fields : Option Fields)
  | createOp (resource : String) (d : Dict) (rld : Bool)
  | updateOp (resource : String) (rid : PathId) (d : Dict) (rld : Bool)
  | deleteOp (resource : String) (rid : DelId) (rld : Bool)

/-- The world after running one operation (its return value dropped). -/
def runOp (w : World) : Op → World
  | .authOp u p => (authenticate w u p).2
  | .renewOp => (renew_token w).2
  | .dispatchOp m r pid d ps rl => (dispatch w m r pid d ps rl).world
  | .searchOp r t f => (search w r t f).world
  | .getOp r rid f => (get_resource w r rid f).world
  | .createOp r d rl => (create_resource w r d rl).world
  | .updateOp r rid d rl => (update_resource w r rid d rl).world
  | .deleteOp r rid rl => (delete_resource w r rid rl).world

def respTokA1 : Response := ⟨200, "j", true, [("access_token", "A1"), ("refresh_token", "R1")]⟩

def respTokEmpty : Response := ⟨200, "j", true, [("access_token", ""), ("refresh_token", "R2")]⟩

def wStale : World := ⟨mkSession "h" false false, [respTokA1, respTokEmpty, respOK], []⟩

def wStale2 : World := (authenticate (authenticate wStale "u" "p").2 "u" "p").2

def authHeaders (log : List Request) : List (Option String) :=
  log.map (fun q => dictLookup q.headers "Authorization")

def wRenewOnly : World := ⟨sessTok, [respAuthA2], []⟩

def wStaleMid : World := (authenticate wStale "u" "p").2

/-! ## Lemmas and theorems -/

/-! ## Helper lemmas -/

theorem pyOr_some (d : Dict) : pyOr (some d) = d := by
  by_cases h : d = [] <;> simp [pyOr, h]

theorem dictLookup_some_ne_nil {d : Dict} {k v : String}
    (h : dictLookup d k = some v) : d ≠ [] := by
  cases d with
  | nil => simp [dictLookup] at h
  | cons a l => exact fun hc => nomatch hc

theorem sendReq_some {w : World} {m u : String} {jb fb ps : Option Dict} {ph : Dict}
    {r : Response} {w' : World}
    (h : sendReq w m u jb fb ps ph = some (r, w')) :
    w'.log = w.log ++ [⟨m, u, jb, fb, ps, mergeHeaders w.sess.headers ph, w.sess.verify_ssl⟩] ∧
    w'.sess = w.sess ∧ w.script = r :: w'.script := by
  unfold sendReq at h
  cases hs : w.script with
  | nil => rw [hs] at h; simp at h
  | cons a rest =>
    rw [hs] at h
    simp at h
    obtain ⟨h1, h2⟩ := h
    subst h1
    subst h2
    simp [hs]

theorem renew_log (w : World) :
    (renew_token w).2.log = w.log ∨
    (renew_token w).2.log = w.log ++
      [⟨"GET", renewUrl w.sess, none, none, none, w.sess.headers, w.sess.verify_ssl⟩] := by
  unfold renew_token
  split
  · left; rfl
  · cases hsr : sendReq w "GET" (renewUrl w.sess) none none none [] with
    | none => left; simp [hsr]
    | some p =>
      obtain ⟨r, w1⟩ := p
      obtain ⟨hlog, -, -⟩ := sendReq_some hsr
      right
      simp only [hsr]
      split
      · simpa [mergeHeaders] using hlog
      · split
        · simpa [mergeHeaders] using hlog
        · simpa [mergeHeaders] using hlog

theorem dispatchFinish_world (w : World) (r : Response) (u : String) (cd : Option Dict) :
    (dispatchFinish w r u cd).world = w := by
  unfold dispatchFinish; split <;> rfl

theorem dispatchFinish_callerData (w : World) (r : Response) (u : String) (cd : Option Dict) :
    (dispatchFinish w r u cd).callerData = cd := by
  unfold dispatchFinish; split <;> rfl

theorem dispatchExpired_log (w : World) (r : Response) (m u : String)
    (s ps : Option Dict) (cd : Option Dict) :
    ∃ M, (dispatchExpired w r m u s ps cd).world.log = w.log ++ M := by
  unfold dispatchExpired
  split
  · cases hrw : renew_token w with
    | mk res w2 =>
      have hlog := renew_log w
      rw [hrw] at hlog
      dsimp only at hlog
      have hM : ∃ M, w2.log = w.log ++ M := by
        rcases hlog with h | h
        · exact ⟨[], by simp [h]⟩
        · exact ⟨_, h⟩
      obtain ⟨M, hM⟩ := hM
      cases res with
      | ok v =>
        dsimp only
        cases hsr : sendReq w2 m u s none ps dispatchHeaders with
        | none => exact ⟨M, hM⟩
        | some p =>
          obtain ⟨r2, w3⟩ := p
          obtain ⟨h3, -, -⟩ := sendReq_some hsr
          rw [dispatchFinish_world]
          exact ⟨_, by rw [h3, hM, List.append_assoc]⟩
      | exn e => cases e <;> (dsimp only; exact ⟨M, hM⟩)
  · rw [dispatchFinish_world]
    exact ⟨[], by simp⟩

theorem dispatch401_log (w : World) (r : Response) (m u : String)
    (s ps : Option Dict) (cd : Option Dict) :
    ∃ M, (dispatch401 w r m u s ps cd).world.log = w.log ++ M := by
  unfold dispatch401
  split
  · cases hrw : renew_token w with
    | mk res w2 =>
      have hlog := renew_log w
      rw [hrw] at hlog
      dsimp only at hlog
      have hM : ∃ M, w2.log = w.log ++ M := by
        rcases hlog with h | h
        · exact ⟨[], by simp [h]⟩
        · exact ⟨_, h⟩
      obtain ⟨M, hM⟩ := hM
      cases res with
      | ok v =>
        dsimp only
        cases hsr : sendReq w2 m u s none ps dispatchHeaders with
        | none => exact ⟨M, hM⟩
        | some p =>
          obtain ⟨r2, w3⟩ := p
          obtain ⟨h3, -, -⟩ := sendReq_some hsr
          obtain ⟨M2, hM2⟩ := dispatchExpired_log w3 r2 m u s ps cd
          refine ⟨M ++ [⟨m, u, s, none, ps, mergeHeaders w2.sess.headers dispatchHeaders,
            w2.sess.verify_ssl⟩] ++ M2, ?_⟩
          rw [hM2, h3, hM]
          simp
      | exn e => cases e <;> (dsimp only; exact ⟨M, hM⟩)
  · exact dispatchExpired_log w r m u s ps cd

theorem dispatchCore_first_log (w : World) (m u : String) (s ps : Option Dict)
    (cd : Option Dict) (r : Response) (rest : List Response)
    (hs : w.script = r :: rest) :
    (dispatchCore w m u s ps cd).world.log.get? w.log.length =
      some ⟨m, u, s, none, ps, mergeHeaders w.sess.headers dispatchHeaders, w.sess.verify_ssl⟩ := by
  unfold dispatchCore
  cases hsr : sendReq w m u s none ps dispatchHeaders with
  | none => simp [sendReq, hs] at hsr
  | some p =>
    obtain ⟨r1, w1⟩ := p
    obtain ⟨h1, -, -⟩ := sendReq_some hsr
    obtain ⟨M, hM⟩ := dispatch401_log w1 r1 m u s ps cd
    rw [hM, h1, List.append_assoc]
    have hget : ∀ (L A : List Request) (q : Request), (L ++ (q :: A)).get? L.length = some q := by
      intro L
      induction L with
      | nil => intro A q; rfl
      | cons a t ih => intro A q; simpa using ih A q
    simpa using hget w.log M _

theorem dispatchExpired_callerData (w : World) (r : Response) (m u : String)
    (s ps : Option Dict) (cd : Option Dict) :
    (dispatchExpired w r m u s ps cd).callerData = cd := by
  unfold dispatchExpired
  split
  · cases hrw : renew_token w with
    | mk res w2 =>
      cases res with
      | ok v =>
        dsimp only
        cases hsr : sendReq w2 m u s none ps dispatchHeaders with
        | none => rfl
        | some p =>
          obtain ⟨r2, w3⟩ := p
          exact dispatchFinish_callerData w3 r2 u cd
      | exn e => cases e <;> rfl
  · exact dispatchFinish_callerData w r u cd

theorem dispatch401_callerData (w : World) (r : Response) (m u : String)
    (s ps : Option Dict) (cd : Option Dict) :
    (dispatch401 w r m u s ps cd).callerData = cd := by
  unfold dispatch401
  split
  · cases hrw : renew_token w with
    | mk res w2 =>
      cases res with
      | ok v =>
        dsimp only
        cases hsr : sendReq w2 m u s none ps dispatchHeaders with
        | none => rfl
        | some p =>
          obtain ⟨r2, w3⟩ := p
          exact dispatchExpired_callerData w3 r2 m u s ps cd
      | exn e => cases e <;> rfl
  · exact dispatchExpired_callerData w r m u s ps cd

theorem dispatchCore_callerData (w : World) (m u : String) (s ps : Option Dict)
    (cd : Option Dict) :
    (dispatchCore w m u s ps cd).callerData = cd := by
  unfold dispatchCore
  cases hsr : sendReq w m u s none ps dispatchHeaders with
  | none => rfl
  | some p =>
    obtain ⟨r1, w1⟩ := p
    exact dispatch401_callerData w1 r1 m u s ps cd

/-! ## Theorems -/

/-- Claim C4: for every resource-name string `R` and every verb prefix in
get/create/update/delete, the dynamically-named method resolves to the
suffix `R` and, applied to any arguments, performs exactly the
corresponding generic operation with `resource = R`. -/
theorem claim4_theorem (R : String) (w : World) (rid : Option PathId)
    (f : Option Fields) (d : Dict) (rl : Bool) (pid : PathId) (did : DelId) :
    (getattrFallback ("get_" ++ R) = .ok (.getM R) ∧
      callDyn w (.getM R) (.getA rid f) = some (get_resource w R rid f)) ∧
    (getattrFallback ("create_" ++ R) = .ok (.createM R) ∧
      callDyn w (.createM R) (.createA d rl) = some (create_resource w R d rl)) ∧
    (getattrFallback ("update_" ++ R) = .ok (.updateM R) ∧
      callDyn w (.updateM R) (.updateA pid d rl) = some (update_resource w R pid d rl)) ∧
    (getattrFallback ("delete_" ++ R) = .ok (.deleteM R) ∧
      callDyn w (.deleteM R) (.deleteA did rl) = some (delete_resource w R did rl)) :=
  ⟨⟨rfl, rfl⟩, ⟨rfl, rfl⟩, ⟨rfl, rfl⟩, ⟨rfl, rfl⟩⟩

/-- Claim C5: an attribute name starting with none of the four verb
prefixes falls through to the `AttributeError`, whose message names the
offending attribute. -/
theorem claim5_theorem (name : String)
    (h1 : strStartsWith name "get_" = false)
    (h2 : strStartsWith name "create_" = false)
    (h3 : strStartsWith name "update_" = false)
    (h4 : strStartsWith name "delete_" = false) :
    getattrFallback name =
      .exn (.attributeError ("\x27IssabelClient\x27 object has no attribute \x27" ++ name ++ "\x27")) := by
  simp [getattrFallback, h1, h2, h3, h4]

/-- Witness for C5 at the concrete attribute name `"foo_bar"`. -/
theorem claim5_witness :
    (strStartsWith "foo_bar" "get_" = false ∧
      strStartsWith "foo_bar" "create_" = false ∧
      strStartsWith "foo_bar" "update_" = false ∧
      strStartsWith "foo_bar" "delete_" = false) ∧
    getattrFallback "foo_bar" =
      .exn (.attributeError ("\x27IssabelClient\x27 object has no attribute \x27" ++ "foo_bar" ++ "\x27")) :=
  ⟨by decide, claim5_theorem "foo_bar" (by decide) (by decide) (by decide) (by decide)⟩

/-- Claim C9: a falsy identifier — the integer 0, the empty string, or an
empty identifier list for delete — yields a request against the bare
resource path, identical in every respect to the call with no identifier. -/
theorem claim9_theorem (w : World) (R : String) (f : Option Fields) (d : Dict) (rl : Bool) :
    get_resource w R (some (.s "")) f = get_resource w R none f ∧
    get_resource w R (some (.n 0)) f = get_resource w R none f ∧
    update_resource w R (.s "") d rl = dispatch w "PUT" R none (some d) none rl ∧
    update_resource w R (.n 0) d rl = dispatch w "PUT" R none (some d) none rl ∧
    delete_resource w R (.l []) rl = dispatch w "DELETE" R none none none rl ∧
    delete_resource w R (.s "") rl = dispatch w "DELETE" R none none none rl ∧
    delete_resource w R (.n 0) rl = dispatch w "DELETE" R none none none rl ∧
    requestPath R (some (.s "")) = R ∧
    requestPath R (some (.n 0)) = R ∧
    requestPath R none = R :=
  ⟨rfl, rfl, rfl, rfl, rfl, rfl, rfl, rfl, rfl, rfl⟩

/-- Claim C3: a `renew_token` call whose response parses to a mapping with
a status other than `"authorized"` returns that raw mapping and leaves the
whole session state (tokens and headers) untouched; exactly one renewal
request is issued. -/
theorem claim3_theorem (w : World) (r : Response) (rest : List Response) (d : Dict)
    (hs : w.script = r :: rest)
    (hrt : optStrTruthy w.sess.refresh_token = true)
    (hat : optStrTruthy w.sess.access_token = true)
    (hcode : r.status_code < 400)
    (hparse : safe_json_parse r = some d)
    (hstatus : dictLookup d "status" ≠ some "authorized") :
    (renew_token w).1 = .ok d ∧
    (renew_token w).2.sess = w.sess ∧
    (renew_token w).2.script = rest ∧
    (renew_token w).2.log = w.log ++
      [⟨"GET", renewUrl w.sess, none, none, none, w.sess.headers, w.sess.verify_ssl⟩] := by
  have hhttp : ¬ isHttpErrCode r.status_code := by unfold isHttpErrCode; omega
  simp [renew_token, sendReq, hs, hrt, hat, hhttp, hparse, truthyWithStatus, hstatus,
    pyOr_some, mergeHeaders]

/-- Witness for C3: a renewal answered with status `"denied"` is returned
raw and changes nothing. -/
theorem claim3_witness :
    (wDenied.script = ⟨200, "j", true, [("status", "denied")]⟩ :: [] ∧
      optStrTruthy wDenied.sess.refresh_token = true ∧
      optStrTruthy wDenied.sess.access_token = true ∧ (200 : Nat) < 400 ∧
      safe_json_parse ⟨200, "j", true, [("status", "denied")]⟩ = some [("status", "denied")] ∧
      dictLookup [("status", "denied")] "status" ≠ some "authorized") ∧
    ((renew_token wDenied).1 = .ok [("status", "denied")] ∧
      (renew_token wDenied).2.sess = wDenied.sess ∧
      (renew_token wDenied).2.script = [] ∧
      (renew_token wDenied).2.log = wDenied.log ++
        [⟨"GET", renewUrl wDenied.sess, none, none, none, wDenied.sess.headers,
          wDenied.sess.verify_ssl⟩]) :=
  ⟨by decide, claim3_theorem wDenied ⟨200, "j", true, [("status", "denied")]⟩ []
    [("status", "denied")] rfl (by decide) (by decide) (by decide) (by decide) (by decide)⟩

/-- Claim C6: `authenticate` on a successful HTTP exchange whose non-empty
body is not valid JSON raises the `ValueError` whose message carries a
snippet of at most 200 characters of the raw body, and the session (tokens
and headers) is unchanged. -/
theorem claim6_theorem (w : World) (u p : String) (r : Response) (rest : List Response)
    (hs : w.script = r :: rest)
    (hcode : r.status_code < 400)
    (hcontent : r.content ≠ "")
    (hjson : r.json_ok = false) :
    (authenticate w u p).1 =
      .exn (.valueError ("Authentication failed: Server returned non-JSON response. Content: "
        ++ strTake r.content 200)) ∧
    (authenticate w u p).2.sess = w.sess ∧
    (strTake r.content 200).data.length ≤ 200 := by
  have hhttp : ¬ isHttpErrCode r.status_code := by unfold isHttpErrCode; omega
  have hparse : safe_json_parse r
      = some [("error", "Invalid JSON response"), ("content", r.content)] := by
    simp [safe_json_parse, hcontent, hjson]
  have hc : dictLookup [("error", "Invalid JSON response"), ("content", r.content)] "content"
      = some r.content := rfl
  have htwe : truthyWithError (some [("error", "Invalid JSON response"), ("content", r.content)])
      = true := rfl
  refine ⟨?_, ?_, ?_⟩
  · simp [authenticate, sendReq, hs, hhttp, hparse, htwe, hc]
  · simp [authenticate, sendReq, hs, hhttp, hparse, htwe, hc]
  · simp [strTake]

/-- Witness for C6: a 200 response with non-JSON body `"garbage body"`. -/
theorem claim6_witness :
    (wGarbage.script = ⟨200, "garbage body", false, []⟩ :: [] ∧
      (200 : Nat) < 400 ∧ "garbage body" ≠ "" ∧
      (⟨200, "garbage body", false, []⟩ : Response).json_ok = false) ∧
    ((authenticate wGarbage "u" "p").1 =
      .exn (.valueError ("Authentication failed: Server returned non-JSON response. Content: "
        ++ strTake "garbage body" 200)) ∧
      (authenticate wGarbage "u" "p").2.sess = wGarbage.sess ∧
      (strTake "garbage body" 200).data.length ≤ 200) :=
  ⟨by decide, claim6_theorem wGarbage "u" "p" ⟨200, "garbage body", false, []⟩ [] rfl
    (by decide) (by decide) (by decide)⟩

/-- Claim C10 (amended): the raise condition in `authenticate` is the
presence of an `"error"` key in the parsed mapping, not invalid JSON; when
the mapping also has a `"content"` key the call raises the same
`ValueError` (with the truncated snippet read from `"content"`) as for a
non-JSON body, and no token is stored.  When `"content"` is absent the
subscript `result["content"]` itself raises a `KeyError` instead (see the
counterexample). -/
theorem claim10_theorem (w : World) (u p : String) (r : Response) (rest : List Response)
    (d : Dict) (c : String)
    (hs : w.script = r :: rest)
    (hcode : r.status_code < 400)
    (hcontent : r.content ≠ "")
    (hjson : r.json_ok = true)
    (hval : r.json_val = d)
    (hne : d ≠ [])
    (hkey : dictHasKey d "error" = true)
    (hc : dictLookup d "content" = some c) :
    (authenticate w u p).1 =
      .exn (.valueError ("Authentication failed: Server returned non-JSON response. Content: "
        ++ strTake c 200)) ∧
    (authenticate w u p).2.sess = w.sess := by
  have hhttp : ¬ isHttpErrCode r.status_code := by unfold isHttpErrCode; omega
  have hparse : safe_json_parse r = some d := by
    simp [safe_json_parse, hcontent, hjson, hval]
  have hie : d.isEmpty = false := by
    cases d with
    | nil => exact absurd rfl hne
    | cons a l => rfl
  have htwe : truthyWithError (some d) = true := by
    simp [truthyWithError, hie, hkey]
  constructor
  · simp [authenticate, sendReq, hs, hhttp, hparse, htwe, hc]
  · simp [authenticate, sendReq, hs, hhttp, hparse, htwe, hc]

/-- Counterexample for C10 as stated: on a valid-JSON body whose mapping
has an `"error"` key but no `"content"` key, `authenticate` raises a
`KeyError` on the `result["content"]` subscript, not the hard
authentication `ValueError` raised for a non-JSON body. -/
theorem claim10_counterexample :
    (authenticate wErrJson "admin" "pw").1 = .exn (.keyError "content") ∧
    (authenticate wErrJson "admin" "pw").2.sess = wErrJson.sess := by decide

/-- Witness for C10 (amended) at a JSON body carrying `"error"` and
`"content"`. -/
theorem claim10_witness :
    (wErrJsonC.script = ⟨200, "ej", true, [("error", "x"), ("content", "server snippet")]⟩ :: [] ∧
      (200 : Nat) < 400 ∧ "ej" ≠ "" ∧
      dictHasKey [("error", "x"), ("content", "server snippet")] "error" = true ∧
      dictLookup [("error", "x"), ("content", "server snippet")] "content" = some "server snippet") ∧
    ((authenticate wErrJsonC "admin" "pw").1 =
      .exn (.valueError ("Authentication failed: Server returned non-JSON response. Content: "
        ++ strTake "server snippet" 200)) ∧
      (authenticate wErrJsonC "admin" "pw").2.sess = wErrJsonC.sess) :=
  ⟨by decide, claim10_theorem wErrJsonC "admin" "pw"
    ⟨200, "ej", true, [("error", "x"), ("content", "server snippet")]⟩ []
    [("error", "x"), ("content", "server snippet")] "server snippet"
    rfl (by decide) (by decide) rfl rfl (by decide) (by decide) (by decide)⟩

/-- Claim C1 (amended): the 401 check and the 200-"expired" check run in
sequence, the second applying to whatever response is current after the
first, so both can fire within one dispatch (see the counterexample).
When the first response is 401 and both the renewal and the resend succeed
with a non-"expired" body, exactly one renewal and one resend occur: the
log grows by exactly the original request, the renewal request, and the
resend; the call returns the resend's parsed body; and the session's
tokens and Authorization header equal the renewed ones. -/
theorem claim1_theorem (w : World) (method R : String) (pid : Option PathId)
    (data0 ps : Option Dict) (rld : Bool) (r1 rr r2 : Response) (rest : List Response)
    (dr d2 : Dict)
    (hs : w.script = r1 :: rr :: r2 :: rest)
    (hat : optStrTruthy w.sess.access_token = true)
    (hrt : optStrTruthy w.sess.refresh_token = true)
    (h401 : r1.status_code = 401)
    (hrrcode : rr.status_code < 400)
    (hrrparse : safe_json_parse rr = some dr)
    (hrrstatus : dictLookup dr "status" = some "authorized")
    (h200 : r2.status_code = 200)
    (hr2parse : safe_json_parse r2 = some d2)
    (hr2status : dictLookup d2 "status" ≠ some "expired") :
    (dispatch w method R pid data0 ps rld).result = .ok d2 ∧
    (dispatch w method R pid data0 ps rld).world.sess.access_token = dictLookup dr "access_token" ∧
    (dispatch w method R pid data0 ps rld).world.sess.refresh_token = dictLookup dr "refresh_token" ∧
    (dispatch w method R pid data0 ps rld).world.sess.headers =
      dictSet w.sess.headers "Authorization" ("Bearer " ++ pyStr (dictLookup dr "access_token")) ∧
    (dispatch w method R pid data0 ps rld).world.script = rest ∧
    (dispatch w method R pid data0 ps rld).callerData = callerAfter method data0 rld ∧
    (dispatch w method R pid data0 ps rld).world.log = w.log ++
      [⟨method, urljoin w.sess.base_url (requestPath R pid), requestBody method data0 rld,
         none, ps, mergeHeaders w.sess.headers dispatchHeaders, w.sess.verify_ssl⟩,
       ⟨"GET", renewUrl w.sess, none, none, none, w.sess.headers, w.sess.verify_ssl⟩,
       ⟨method, urljoin w.sess.base_url (requestPath R pid), requestBody method data0 rld,
         none, ps,
         mergeHeaders (dictSet w.sess.headers "Authorization"
           ("Bearer " ++ pyStr (dictLookup dr "access_token"))) dispatchHeaders,
         w.sess.verify_ssl⟩] := by
  have hdrne : dr ≠ [] := dictLookup_some_ne_nil hrrstatus
  have hdrie : dr.isEmpty = false := by
    cases dr with
    | nil => exact absurd rfl hdrne
    | cons a l => rfl
  have hh1 : ¬ isHttpErrCode rr.status_code := by unfold isHttpErrCode; omega
  have hh2 : ¬ isHttpErrCode 200 := by decide
  simp [dispatch, dispatchCore, dispatch401, dispatchExpired, dispatchFinish, renew_token,
    sendReq, hs, hat, hrt, h401, hh1, hh2, hrrparse, hrrstatus, h200, hr2parse, hr2status,
    truthyWithStatus, hdrie, pyOr_some, mergeHeaders, dispatchHeaders, beq_eq_false_iff_ne]

/-- Counterexample for C1 as stated: in a single dispatch whose first
response is 401 and whose post-renewal resend comes back 200 with body
status `"expired"`, both checks fire: two renewal calls and two resends of
the original request occur, refuting mutual exclusivity and the
at-most-one bound. -/
theorem claim1_counterexample :
    countRenews (dispatch wTwice "GET" "extensions" none none none true).world.log
      "http://h/pbxapi/" = 2 ∧
    countUrl (dispatch wTwice "GET" "extensions" none none none true).world.log
      "http://h/pbxapi/extensions" = 3 ∧
    ¬ (countRenews (dispatch wTwice "GET" "extensions" none none none true).world.log
        "http://h/pbxapi/" ≤ 1 ∧
       countUrl (dispatch wTwice "GET" "extensions" none none none true).world.log
        "http://h/pbxapi/extensions" - 1 ≤ 1) := by decide

/-- Witness for C1 (amended) on the concrete single-recovery scenario. -/
theorem claim1_witness :
    (wRecover.script = resp401 :: respAuthA2 :: respOK :: [] ∧
      optStrTruthy wRecover.sess.access_token = true ∧
      optStrTruthy wRecover.sess.refresh_token = true ∧
      resp401.status_code = 401 ∧ respAuthA2.status_code < 400 ∧
      safe_json_parse respAuthA2 =
        some [("status", "authorized"), ("access_token", "A2"), ("refresh_token", "R2")] ∧
      dictLookup [("status", "authorized"), ("access_token", "A2"), ("refresh_token", "R2")]
        "status" = some "authorized" ∧
      respOK.status_code = 200 ∧
      safe_json_parse respOK = some [("status", "success")] ∧
      dictLookup [("status", "success")] "status" ≠ some "expired") ∧
    ((dispatch wRecover "GET" "extensions" none none none true).result =
        .ok [("status", "success")] ∧
      (dispatch wRecover "GET" "extensions" none none none true).world.sess.access_token =
        some "A2" ∧
      (dispatch wRecover "GET" "extensions" none none none true).world.sess.refresh_token =
        some "R2" ∧
      (dispatch wRecover "GET" "extensions" none none none true).world.sess.headers =
        [("Authorization", "Bearer A2")] ∧
      (dispatch wRecover "GET" "extensions" none none none true).world.script = [] ∧
      (dispatch wRecover "GET" "extensions" none none none true).callerData = none ∧
      (dispatch wRecover "GET" "extensions" none none none true).world.log =
        [⟨"GET", "http://h/pbxapi/extensions", none, none, none,
           [("Authorization", "Bearer A1"), ("Content-Type", "application/json")], false⟩,
         ⟨"GET", "http://h/pbxapi/authenticate/renewtoken?refresh_token=R1&access_token=A1",
           none, none, none, [("Authorization", "Bearer A1")], false⟩,
         ⟨"GET", "http://h/pbxapi/extensions", none, none, none,
           [("Authorization", "Bearer A2"), ("Content-Type", "application/json")], false⟩]) :=
  ⟨by decide, claim1_theorem wRecover "GET" "extensions" none none none true
    resp401 respAuthA2 respOK []
    [("status", "authorized"), ("access_token", "A2"), ("refresh_token", "R2")]
    [("status", "success")] rfl (by decide) (by decide) (by decide) (by decide) (by decide)
    (by decide) (by decide) (by decide) (by decide)⟩

/-- Claim C2 (amended): a create or update with `reload` true sends a body
equal to the input mapping with `reload: "true"` upserted — but it builds
that body by assigning into the caller's own mapping, so after the call
the caller's mapping equals the sent body, not its original value. -/
theorem claim2_theorem (w : World) (R : String) (d : Dict) (pid : PathId)
    (r : Response) (rest : List Response)
    (hs : w.script = r :: rest) :
    (create_resource w R d true).callerData = some (dictSet d "reload" "true") ∧
    (create_resource w R d true).world.log.get? w.log.length =
      some ⟨"POST", urljoin w.sess.base_url R, some (dictSet d "reload" "true"), none, none,
        mergeHeaders w.sess.headers dispatchHeaders, w.sess.verify_ssl⟩ ∧
    (update_resource w R pid d true).callerData = some (dictSet d "reload" "true") ∧
    (update_resource w R pid d true).world.log.get? w.log.length =
      some ⟨"PUT", urljoin w.sess.base_url (requestPath R (some pid)),
        some (dictSet d "reload" "true"), none, none,
        mergeHeaders w.sess.headers dispatchHeaders, w.sess.verify_ssl⟩ := by
  refine ⟨?_, ?_, ?_, ?_⟩
  · simp only [create_resource, dispatch, dispatchCore_callerData]
    rfl
  · exact dispatchCore_first_log w "POST" _ _ none _ r rest hs
  · simp only [update_resource, dispatch, dispatchCore_callerData]
    rfl
  · exact dispatchCore_first_log w "PUT" _ _ none _ r rest hs

/-- Counterexample for C2 as stated: after
`create_resource "extensions" (name: Test)` with default reload, the
caller's input mapping has acquired the `reload` field — it is not equal
to its pre-call value. -/
theorem claim2_counterexample :
    (create_resource wOne "extensions" [("name", "Test")] true).callerData =
      some [("name", "Test"), ("reload", "true")] ∧
    (create_resource wOne "extensions" [("name", "Test")] true).callerData ≠
      some [("name", "Test")] := by decide

/-- Witness for C2 (amended) on `(name: Test)` bodies. -/
theorem claim2_witness :
    wOne.script = respOK :: [] ∧
    ((create_resource wOne "extensions" [("name", "Test")] true).callerData =
      some [("name", "Test"), ("reload", "true")] ∧
    (create_resource wOne "extensions" [("name", "Test")] true).world.log.get? 0 =
      some ⟨"POST", "http://h/pbxapi/extensions", some [("name", "Test"), ("reload", "true")],
        none, none, [("Authorization", "Bearer A1"), ("Content-Type", "application/json")], false⟩ ∧
    (update_resource wOne "extensions" (.s "9") [("name", "Test")] true).callerData =
      some [("name", "Test"), ("reload", "true")] ∧
    (update_resource wOne "extensions" (.s "9") [("name", "Test")] true).world.log.get? 0 =
      some ⟨"PUT", "http://h/pbxapi/extensions/9", some [("name", "Test"), ("reload", "true")],
        none, none, [("Authorization", "Bearer A1"), ("Content-Type", "application/json")], false⟩) :=
  ⟨by decide, claim2_theorem wOne "extensions" [("name", "Test")] (.s "9") respOK [] rfl⟩

/-- Claim C8: a delete with a list of identifiers joins their string forms
with commas into the identifier segment of the issued DELETE request. -/
theorem claim8_theorem (w : World) (R : String) (ids : List PathId) (rl : Bool)
    (r : Response) (rest : List Response)
    (hs : w.script = r :: rest)
    (hne : String.intercalate "," (ids.map PathId.toStr) ≠ "") :
    DelId.resolve (.l ids) = .s (String.intercalate "," (ids.map PathId.toStr)) ∧
    (delete_resource w R (.l ids) rl).world.log.get? w.log.length =
      some ⟨"DELETE",
        urljoin w.sess.base_url (R ++ "/" ++ String.intercalate "," (ids.map PathId.toStr)),
        none, none, none, mergeHeaders w.sess.headers dispatchHeaders, w.sess.verify_ssl⟩ := by
  constructor
  · rfl
  · have hpath : requestPath R (some (PathId.s (String.intercalate "," (ids.map PathId.toStr))))
        = R ++ "/" ++ String.intercalate "," (ids.map PathId.toStr) := by
      simp [requestPath, PathId.truthy, PathId.toStr, hne]
    simp only [delete_resource, dispatch, DelId.resolve, hpath]
    exact dispatchCore_first_log w "DELETE" _ none none _ r rest hs

/-- Witness for C8: `delete_resource "extensions" ["100", "101"]` issues
`DELETE` against the path segment `"100,101"`. -/
theorem claim8_witness :
    (wOne.script = respOK :: [] ∧
      String.intercalate "," ([PathId.s "100", PathId.s "101"].map PathId.toStr) ≠ "") ∧
    (DelId.resolve (.l [PathId.s "100", PathId.s "101"]) = .s "100,101" ∧
      (delete_resource wOne "extensions" (.l [PathId.s "100", PathId.s "101"]) true).world.log.get? 0 =
        some ⟨"DELETE", "http://h/pbxapi/extensions/100,101", none, none, none,
          [("Authorization", "Bearer A1"), ("Content-Type", "application/json")], false⟩) :=
  ⟨by decide, claim8_theorem wOne "extensions" [PathId.s "100", PathId.s "101"] true respOK []
    rfl (by decide)⟩

theorem dictLookup_dictSet_self (d : Dict) (k v : String) :
    dictLookup (dictSet d k v) k = some v := by
  induction d with
  | nil => simp [dictSet, dictLookup]
  | cons a t ih =>
    obtain ⟨ak, av⟩ := a
    by_cases h : ak = k
    · simp [dictSet, h, dictLookup]
    · simp [dictSet, h, dictLookup, ih]

theorem dictLookup_dictSet_other (d : Dict) (ks kq v : String) (h : kq ≠ ks) :
    dictLookup (dictSet d ks v) kq = dictLookup d kq := by
  induction d with
  | nil => simp [dictSet, dictLookup, Ne.symm h]
  | cons a t ih =>
    obtain ⟨ak, av⟩ := a
    by_cases hk : ak = ks
    · subst hk
      simp [dictSet, dictLookup, Ne.symm h]
    · simp [dictSet, hk, dictLookup, ih]

theorem dictSet_dictSet (d : Dict) (k v v' : String) :
    dictSet (dictSet d k v) k v' = dictSet d k v' := by
  induction d with
  | nil => simp [dictSet]
  | cons a t ih =>
    obtain ⟨ak, av⟩ := a
    by_cases h : ak = k
    · simp [dictSet, h]
    · simp [dictSet, h, ih]

theorem mergeHeaders_lookup (per : Dict) (s : Dict) (k : String)
    (h : dictLookup per k = none) :
    dictLookup (mergeHeaders s per) k = dictLookup s k := by
  induction per generalizing s with
  | nil => rfl
  | cons a t ih =>
    obtain ⟨pk, pv⟩ := a
    have hpk : pk ≠ k := by
      intro he
      subst he
      simp [dictLookup] at h
    have ht : dictLookup t k = none := by
      simpa [dictLookup, hpk] using h
    show dictLookup (mergeHeaders (dictSet s pk pv) t) k = dictLookup s k
    rw [ih (dictSet s pk pv) ht, dictLookup_dictSet_other s pk k pv (Ne.symm hpk)]

theorem HeadersEvolve.refl (h1 : Dict) : HeadersEvolve h1 h1 := Or.inl (Eq.refl h1)

theorem HeadersEvolve.trans {h1 h2 h3 : Dict}
    (a : HeadersEvolve h1 h2) (b : HeadersEvolve h2 h3) : HeadersEvolve h1 h3 := by
  rcases a with ha | ⟨v, ha⟩
  · rwa [ha] at b
  · rcases b with hb | ⟨v', hb⟩
    · subst hb; exact Or.inr ⟨v, ha⟩
    · subst ha; rw [dictSet_dictSet] at hb; exact Or.inr ⟨v', hb⟩

theorem HeadersEvolve.keeps {h1 h2 : Dict} (a : HeadersEvolve h1 h2)
    (h : (dictLookup h1 "Authorization").isSome = true) :
    (dictLookup h2 "Authorization").isSome = true := by
  rcases a with ha | ⟨v, ha⟩
  · rwa [ha]
  · rw [ha, dictLookup_dictSet_self]; rfl

theorem authenticate_headers (w : World) (u p : String) :
    HeadersEvolve w.sess.headers (authenticate w u p).2.sess.headers := by
  unfold authenticate
  dsimp only
  cases hsr : sendReq w "POST" (urljoin w.sess.base_url "authenticate") none
      (some [("user", u), ("password", p)]) none [] with
  | none => exact HeadersEvolve.refl _
  | some pr =>
    obtain ⟨r, w1⟩ := pr
    obtain ⟨-, hsess, -⟩ := sendReq_some hsr
    dsimp only
    split
    · rw [hsess]; exact HeadersEvolve.refl _
    · split
      · split
        · split
          · rw [hsess]; exact HeadersEvolve.refl _
          · rw [hsess]; exact HeadersEvolve.refl _
        · rw [hsess]; exact HeadersEvolve.refl _
      · split
        · right
          dsimp only
          rw [hsess]
          exact ⟨_, rfl⟩
        · dsimp only
          rw [hsess]
          exact HeadersEvolve.refl _

theorem renew_headers (w : World) :
    HeadersEvolve w.sess.headers (renew_token w).2.sess.headers := by
  unfold renew_token
  dsimp only
  split
  · exact HeadersEvolve.refl _
  · cases hsr : sendReq w "GET" (renewUrl w.sess) none none none [] with
    | none => exact HeadersEvolve.refl _
    | some pr =>
      obtain ⟨r, w1⟩ := pr
      obtain ⟨-, hsess, -⟩ := sendReq_some hsr
      dsimp only
      split
      · rw [hsess]; exact HeadersEvolve.refl _
      · split
        · right
          dsimp only
          rw [hsess]
          exact ⟨_, rfl⟩
        · rw [hsess]; exact HeadersEvolve.refl _

theorem dispatchExpired_headers (w : World) (r : Response) (m u : String)
    (s ps : Option Dict) (cd : Option Dict) :
    HeadersEvolve w.sess.headers (dispatchExpired w r m u s ps cd).world.sess.headers := by
  unfold dispatchExpired
  split
  · cases hrw : renew_token w with
    | mk res w2 =>
      have hev := renew_headers w
      rw [hrw] at hev
      dsimp only at hev
      cases res with
      | ok v =>
        dsimp only
        cases hsr : sendReq w2 m u s none ps dispatchHeaders with
        | none => exact hev
        | some p =>
          obtain ⟨r2, w3⟩ := p
          obtain ⟨-, hsess3, -⟩ := sendReq_some hsr
          rw [dispatchFinish_world, hsess3]
          exact hev
      | exn e => cases e <;> (dsimp only; exact hev)
  · rw [dispatchFinish_world]
    exact HeadersEvolve.refl _

theorem dispatch401_headers (w : World) (r : Response) (m u : String)
    (s ps : Option Dict) (cd : Option Dict) :
    HeadersEvolve w.sess.headers (dispatch401 w r m u s ps cd).world.sess.headers := by
  unfold dispatch401
  split
  · cases hrw : renew_token w with
    | mk res w2 =>
      have hev := renew_headers w
      rw [hrw] at hev
      dsimp only at hev
      cases res with
      | ok v =>
        dsimp only
        cases hsr : sendReq w2 m u s none ps dispatchHeaders with
        | none => exact hev
        | some p =>
          obtain ⟨r2, w3⟩ := p
          obtain ⟨-, hsess3, -⟩ := sendReq_some hsr
          have h2 := dispatchExpired_headers w3 r2 m u s ps cd
          rw [hsess3] at h2
          exact hev.trans h2
      | exn e => cases e <;> (dsimp only; exact hev)
  · exact dispatchExpired_headers w r m u s ps cd

theorem dispatchCore_headers (w : World) (m u : String) (s ps : Option Dict)
    (cd : Option Dict) :
    HeadersEvolve w.sess.headers (dispatchCore w m u s ps cd).world.sess.headers := by
  unfold dispatchCore
  cases hsr : sendReq w m u s none ps dispatchHeaders with
  | none => exact HeadersEvolve.refl _
  | some p =>
    obtain ⟨r1, w1⟩ := p
    obtain ⟨-, hsess, -⟩ := sendReq_some hsr
    have h1 := dispatch401_headers w1 r1 m u s ps cd
    rw [hsess] at h1
    exact h1

theorem runOp_headers (w : World) (op : Op) :
    HeadersEvolve w.sess.headers (runOp w op).sess.headers := by
  cases op with
  | authOp u p => exact authenticate_headers w u p
  | renewOp => exact renew_headers w
  | dispatchOp m r pid d ps rl => exact dispatchCore_headers w m _ _ ps _
  | searchOp r t f => exact dispatchCore_headers w "GET" _ _ _ _
  | getOp r rid f => exact dispatchCore_headers w "GET" _ _ _ _
  | createOp r d rl => exact dispatchCore_headers w "POST" _ _ _ _
  | updateOp r rid d rl => exact dispatchCore_headers w "PUT" _ _ _ _
  | deleteOp r rid rl => exact dispatchCore_headers w "DELETE" _ _ _ _

/-- Claim C7 (amended): (1) an `authenticate` that stores a non-empty
access token sets the session's Authorization header to `Bearer` plus that
token; (2) so does a renewal answered `"authorized"` (with the token it
stored); (3) no operation of the client ever drops the Authorization
header — it is only ever left alone or upserted to a new bearer value;
(4) the per-request header sets never contain Authorization, so every
outgoing request carries the session's Authorization value as of sending;
(5) an `authenticate` that succeeds without a truthy access token leaves
the previous header in place, which is why the claim's stronger
"equals Bearer plus the current token" form fails (see counterexample). -/
theorem claim7_theorem :
    (∀ (w : World) (u p : String) (r : Response) (rest : List Response) (d : Dict) (t : String),
      w.script = r :: rest → r.status_code < 400 → r.content ≠ "" → r.json_ok = true →
      r.json_val = d → d ≠ [] → dictHasKey d "error" = false →
      dictLookup d "access_token" = some t → t ≠ "" →
      (authenticate w u p).1 = .ok d ∧
      (authenticate w u p).2.sess.access_token = some t ∧
      dictLookup (authenticate w u p).2.sess.headers "Authorization" =
        some ("Bearer " ++ t)) ∧
    (∀ (w : World) (r : Response) (rest : List Response) (d : Dict),
      w.script = r :: rest → optStrTruthy w.sess.access_token = true →
      optStrTruthy w.sess.refresh_token = true → r.status_code < 400 →
      safe_json_parse r = some d → dictLookup d "status" = some "authorized" →
      (renew_token w).1 = .ok d ∧
      (renew_token w).2.sess.access_token = dictLookup d "access_token" ∧
      dictLookup (renew_token w).2.sess.headers "Authorization" =
        some ("Bearer " ++ pyStr (dictLookup d "access_token"))) ∧
    (∀ (w : World) (op : Op),
      HeadersEvolve w.sess.headers (runOp w op).sess.headers ∧
      ((dictLookup w.sess.headers "Authorization").isSome = true →
        (dictLookup (runOp w op).sess.headers "Authorization").isSome = true)) ∧
    (∀ s : Dict,
      dictLookup (mergeHeaders s dispatchHeaders) "Authorization" =
        dictLookup s "Authorization" ∧
      dictLookup (mergeHeaders s []) "Authorization" = dictLookup s "Authorization") ∧
    (∀ (w : World) (u p : String) (r : Response) (rest : List Response) (d : Dict),
      w.script = r :: rest → r.status_code < 400 → r.content ≠ "" → r.json_ok = true →
      r.json_val = d → d ≠ [] → dictHasKey d "error" = false →
      optStrTruthy (dictLookup d "access_token") = false →
      (authenticate w u p).1 = .ok d ∧
      (authenticate w u p).2.sess.access_token = dictLookup d "access_token" ∧
      (authenticate w u p).2.sess.headers = w.sess.headers) := by
  refine ⟨?_, ?_, ?_, ?_, ?_⟩
  · intro w u p r rest d t hs hcode hcontent hjson hval hdne hkey htok ht
    have hhttp : ¬ isHttpErrCode r.status_code := by unfold isHttpErrCode; omega
    have hparse : safe_json_parse r = some d := by
      simp [safe_json_parse, hcontent, hjson, hval]
    have htwe : truthyWithError (some d) = false := by
      simp [truthyWithError, hkey]
    simp [authenticate, sendReq, hs, hhttp, hparse, htwe, hdne, htok, optStrTruthy, ht,
      pyStr, pyOr_some, dictLookup_dictSet_self]
  · intro w r rest d hs hat hrt hcode hparse hstatus
    have hdrne : d ≠ [] := dictLookup_some_ne_nil hstatus
    have hdrie : d.isEmpty = false := by
      cases d with
      | nil => exact absurd rfl hdrne
      | cons a l => rfl
    have hhttp : ¬ isHttpErrCode r.status_code := by unfold isHttpErrCode; omega
    simp [renew_token, sendReq, hs, hat, hrt, hhttp, hparse, hstatus, truthyWithStatus,
      hdrie, pyOr_some, dictLookup_dictSet_self]
  · intro w op
    exact ⟨runOp_headers w op, (runOp_headers w op).keeps⟩
  · intro s
    constructor
    · exact mergeHeaders_lookup dispatchHeaders s "Authorization" rfl
    · rfl
  · intro w u p r rest d hs hcode hcontent hjson hval hdne hkey hfalse
    have hhttp : ¬ isHttpErrCode r.status_code := by unfold isHttpErrCode; omega
    have hparse : safe_json_parse r = some d := by
      simp [safe_json_parse, hcontent, hjson, hval]
    have htwe : truthyWithError (some d) = false := by
      simp [truthyWithError, hkey]
    simp [authenticate, sendReq, hs, hhttp, hparse, htwe, hdne, hfalse, pyOr_some]

/-- Counterexample for C7 as stated: after a successful `authenticate`
whose response carries an empty access token, the session's current
access token is `""` while the next outgoing request still carries the
stale `Bearer A1` header — not `"Bearer "` followed by the current
token. -/
theorem claim7_counterexample :
    (authenticate (authenticate wStale "u" "p").2 "u" "p").1 =
      .ok [("access_token", ""), ("refresh_token", "R2")] ∧
    wStale2.sess.access_token = some "" ∧
    authHeaders (dispatch wStale2 "GET" "extensions" none none none true).world.log =
      [none, some "Bearer A1", some "Bearer A1"] ∧
    some "Bearer A1" ≠ some ("Bearer " ++ pyStr (some "")) := by decide

/-- Witness for C7 (amended), instantiating each conjunct concretely. -/
theorem claim7_witness :
    ((authenticate wStale "u" "p").1 = .ok [("access_token", "A1"), ("refresh_token", "R1")] ∧
      (authenticate wStale "u" "p").2.sess.access_token = some "A1" ∧
      dictLookup (authenticate wStale "u" "p").2.sess.headers "Authorization" =
        some ("Bearer " ++ "A1")) ∧
    ((renew_token wRenewOnly).1 =
        .ok [("status", "authorized"), ("access_token", "A2"), ("refresh_token", "R2")] ∧
      (renew_token wRenewOnly).2.sess.access_token =
        dictLookup [("status", "authorized"), ("access_token", "A2"), ("refresh_token", "R2")]
          "access_token" ∧
      dictLookup (renew_token wRenewOnly).2.sess.headers "Authorization" =
        some ("Bearer " ++ pyStr (dictLookup
          [("status", "authorized"), ("access_token", "A2"), ("refresh_token", "R2")]
          "access_token"))) ∧
    (HeadersEvolve wOne.sess.headers (runOp wOne .renewOp).sess.headers ∧
      ((dictLookup wOne.sess.headers "Authorization").isSome = true →
        (dictLookup (runOp wOne .renewOp).sess.headers "Authorization").isSome = true)) ∧
    (dictLookup (mergeHeaders [("Authorization", "Bearer A1")] dispatchHeaders) "Authorization" =
        dictLookup [("Authorization", "Bearer A1")] "Authorization" ∧
      dictLookup (mergeHeaders [("Authorization", "Bearer A1")] []) "Authorization" =
        dictLookup [("Authorization", "Bearer A1")] "Authorization") ∧
    ((authenticate wStaleMid "u" "p").1 = .ok [("access_token", ""), ("refresh_token", "R2")] ∧
      (authenticate wStaleMid "u" "p").2.sess.access_token =
        dictLookup [("access_token", ""), ("refresh_token", "R2")] "access_token" ∧
      (authenticate wStaleMid "u" "p").2.sess.headers = wStaleMid.sess.headers) :=
  ⟨claim7_theorem.1 wStale "u" "p" respTokA1 [respTokEmpty, respOK]
      [("access_token", "A1"), ("refresh_token", "R1")] "A1" rfl (by decide) (by decide)
      (by decide) rfl (by decide) (by decide) (by decide) (by decide),
   claim7_theorem.2.1 wRenewOnly respAuthA2 []
      [("status", "authorized"), ("access_token", "A2"), ("refresh_token", "R2")] rfl
      (by decide) (by decide) (by decide) (by decide) (by decide),
   claim7_theorem.2.2.1 wOne .renewOp,
   claim7_theorem.2.2.2.1 [("Authorization", "Bearer A1")],
   claim7_theorem.2.2.2.2 wStaleMid "u" "p" respTokEmpty [respOK]
      [("access_token", ""), ("refresh_token", "R2")] rfl (by decide) (by decide) (by decide)
      rfl (by decide) (by decide) (by decide)⟩

end Issabel

